import Mathlib

/-!
# KSZ8863 switch driver: SPI register access and chip identification

A shallow embedding of `drivers/net/ethernet/micrel/ksz8863.c`.

* Bytes, `u16` and `u32` values are natural numbers; a conversion that can
  truncate is written with an explicit `%`.
* A C `u8` array is a list of optional bytes, as long as the array: `none` is a
  position that has never been written (an automatic array starts that way).
* An array access outside the array, or the use of a byte that was never
  written, is undefined behaviour in C; the embedded function then returns
  `none`.
* `spi_sync` belongs to the kernel, not to the driver. The hardware behind it
  is a parameter `hw`: a function from the link state and the submitted
  transfer to the status, the bytes clocked in and the next link state.
  `spi_sync` records every submitted transfer in a log, so that the bus
  activity of the driver can be stated.
-/

namespace KSZ8863

/-! ## Constants -/

def KSZ8863_CHIP_ID_MASK : Nat := 0xf0ff
def KSZ8863_CHIP_ID : Nat := 0x3088
def KSZ8863_CHIP_REVISION_MASK : Nat := 0x0e00

def KSZ8863_SPI_READ_CMD : Nat := 0x03
def KSZ8863_SPI_WRITE_CMD : Nat := 0x02

def KSZ8863_REG_CHIP_ID_0 : Nat := 0x00
def KSZ8863_REG_CHIP_ID_1 : Nat := 0x01
def KSZ8863_REG_GLOBAL_CONTROL0 : Nat := 0x02

def KSZ8863_MAX_XFER_VALUES : Nat := 8
def KSZ8863_MAX_XFER : Nat := KSZ8863_MAX_XFER_VALUES + 2

/-- Modelled from the spec: `ksz8863_spi_read` stores `KSZ_SPI_READ_CMD` in
`tx[0]`, a name the source never defines (it defines `KSZ8863_SPI_READ_CMD`).
The wire format of the spec fixes byte 0 of a read frame to `0x03`. -/
def KSZ_SPI_READ_CMD : Nat := 0x03

/-- Modelled from the spec: `ksz8863_spi_write` stores `KSZ_SPI_WRITE_CMD` in
`tx[0]`, a name the source never defines (it defines `KSZ8863_SPI_WRITE_CMD`).
The wire format of the spec fixes byte 0 of a write frame to `0x02`. -/
def KSZ_SPI_WRITE_CMD : Nat := 0x02

/-- Modelled from the spec: `ksz8863_probe` prints `chipid & KSZ8863_REVISION_MASK`,
a name the source never defines (it defines `KSZ8863_CHIP_REVISION_MASK`). The
spec calls the revision a masked subfield of the identity word, separate from
the bits the identity mask `0xf0ff` keeps; the value is the one the source gives
to `KSZ8863_CHIP_REVISION_MASK`. -/
def KSZ8863_REVISION_MASK : Nat := 0x0e00

/-- The errno `ENOMEM` of the kernel (`errno-base.h`). -/
def ENOMEM : Int := 12

/-- The errno `ENODEV` of the kernel (`errno-base.h`). -/
def ENODEV : Int := 19

/-- The errno `EINVAL` of the kernel (`errno-base.h`). -/
def EINVAL : Int := 22

/-! ## C arrays -/

/-- A C `u8` array; `none` marks a byte that was never written. -/
abbrev Buf := List (Option Nat)

/-- The statement `buf[i] = v`. -/
def store (buf : Buf) (i v : Nat) : Option Buf :=
  if i < buf.length then some (buf.set i (some v)) else none

/-- The value of `buf[i]`. -/
def load (buf : Buf) (i : Nat) : Option Nat :=
  match buf[i]? with
  | some (some v) => some v
  | _ => none

/-- The call `memset(buf, v, n)`. -/
def memset (buf : Buf) (v n : Nat) : Option Buf :=
  if n ≤ buf.length then some (List.replicate n (some v) ++ buf.drop n) else none

/-- The call `memcpy(&dst[d], &src[s], n)`. -/
def memcpy (dst : Buf) (d : Nat) (src : Buf) (s n : Nat) : Option Buf :=
  if d + n ≤ dst.length ∧ s + n ≤ src.length then
    some (dst.take d ++ (src.drop s).take n ++ dst.drop (d + n))
  else none

/-- The bytes of a buffer, when every one of them has been written. -/
def determinate : Buf → Option (List Nat)
  | [] => some []
  | none :: _ => none
  | some b :: rest => (determinate rest).map (fun bs => b :: bs)

/-! ## The SPI link -/

/-- The fields of `struct spi_transfer` the driver fills in: `tx` holds the
`length` bytes the pointer `xfer.tx` designates, `rx` tells whether `xfer.rx`
is a buffer (`true`) or `NULL` (`false`). -/
structure spi_transfer where
  tx : List Nat
  rx : Bool
  length : Nat
  deriving DecidableEq, Repr

/-- The hardware behind `spi_sync`: status (`0` for success), the bytes clocked
in, and the next state of the link. -/
abbrev spi_hw (σ : Type) := σ → spi_transfer → Int × List Nat × σ

/-- The `struct spi_device`: the state of the link, and the transfers handed to
`spi_sync` so far, oldest first. -/
structure spi_device (σ : Type) where
  state : σ
  log : List spi_transfer

/-- The `struct ksz8863_data`. -/
structure ksz8863_data (σ : Type) where
  spi : spi_device σ

/-- The bytes `tx[0..n)` that a transfer of length `n` clocks out. -/
def clock_out (tx : Buf) (n : Nat) : Option (List Nat) :=
  if n ≤ tx.length then determinate (tx.take n) else none

/-- The receive buffer after a transfer of length `n`: `rx[i]` is the `i`-th byte
clocked in for `i < n`, the rest of the array is untouched. -/
def clock_in (rx : Buf) (resp : List Nat) (n : Nat) : Option Buf :=
  if n ≤ rx.length then some ((List.range n).map (fun i => resp[i]?) ++ rx.drop n)
  else none

/-- The `spi_sync` of the kernel on a message of one transfer. -/
def spi_sync {σ : Type} (hw : spi_hw σ) (spi : spi_device σ) (t : spi_transfer) :
    Int × List Nat × spi_device σ :=
  let r := hw spi.state t
  (r.1, r.2.1, { state := r.2.2, log := spi.log ++ [t] })

/-! ## The driver -/

/-- The function `ksz8863_spi_xfer(data, tx, rx, length)`; `rx = none` is `NULL`.
Returns the status and the receive buffer after the call. -/
def ksz8863_spi_xfer {σ : Type} (hw : spi_hw σ) (data : ksz8863_data σ)
    (tx : Buf) (rx : Option Buf) (length : Nat) :
    Option (Int × Option Buf × ksz8863_data σ) := do
  let out ← clock_out tx length
  let r := spi_sync hw data.spi { tx := out, rx := rx.isSome, length := length }
  match rx with
  | none => some (r.1, none, { spi := r.2.2 })
  | some b => do
    let b ← clock_in b r.2.1 length
    some (r.1, some b, { spi := r.2.2 })

/-- The function `ksz8863_spi_read(data, dst, addr, count)`: returns the status
and the buffer `dst` of the caller after the call. -/
def ksz8863_spi_read {σ : Type} (hw : spi_hw σ) (data : ksz8863_data σ)
    (dst : Buf) (addr count : Nat) : Option (Int × Buf × ksz8863_data σ) :=
  let tx : Buf := List.replicate KSZ8863_MAX_XFER none
  let rx : Buf := List.replicate KSZ8863_MAX_XFER none
  if count > KSZ8863_MAX_XFER_VALUES then some (-EINVAL, dst, data)
  else do
    let tx ← memset tx 0 KSZ8863_MAX_XFER
    let tx ← store tx 0 KSZ_SPI_READ_CMD
    let tx ← store tx 1 addr
    let r ← ksz8863_spi_xfer hw data tx (some rx) ((count + 2) % 2 ^ 32)
    if r.1 ≠ 0 then some (r.1, dst, r.2.2)
    else do
      let rx ← r.2.1
      let dst ← memcpy dst 0 rx 2 count
      some (0, dst, r.2.2)

/-- The function `ksz8863_spi_write(data, src, addr, count)`: returns the status. -/
def ksz8863_spi_write {σ : Type} (hw : spi_hw σ) (data : ksz8863_data σ)
    (src : List Nat) (addr count : Nat) : Option (Int × ksz8863_data σ) :=
  let tx : Buf := List.replicate KSZ8863_MAX_XFER none
  if count > KSZ8863_MAX_XFER_VALUES then some (-EINVAL, data)
  else do
    let tx ← store tx 0 KSZ_SPI_WRITE_CMD
    let tx ← store tx 1 addr
    let tx ← memcpy tx 2 (src.map some) 0 count
    let r ← ksz8863_spi_xfer hw data tx none ((count + 2) % 2 ^ 32)
    some (r.1, r.2.2)

/-- The function `ksz8863_spi_read8(data, addr)`. -/
def ksz8863_spi_read8 {σ : Type} (hw : spi_hw σ) (data : ksz8863_data σ)
    (addr : Nat) : Option (Nat × ksz8863_data σ) := do
  let rx : Buf := [none]
  let r ← ksz8863_spi_read hw data rx addr 1
  if r.1 ≠ 0 then some (0, r.2.2)
  else do
    let v ← load r.2.1 0
    some (v, r.2.2)

/-- The function `ksz8863_spi_write8(data, addr, value)`. -/
def ksz8863_spi_write8 {σ : Type} (hw : spi_hw σ) (data : ksz8863_data σ)
    (addr value : Nat) : Option (Int × ksz8863_data σ) :=
  ksz8863_spi_write hw data [value] addr 1

/-- The function `ksz8863_get_chipid(data)`; `chipid` is a `u16`. -/
def ksz8863_get_chipid {σ : Type} (hw : spi_hw σ) (data : ksz8863_data σ) :
    Option (Nat × ksz8863_data σ) := do
  let r ← ksz8863_spi_read8 hw data KSZ8863_REG_CHIP_ID_0
  let chipid := r.1 % 2 ^ 16
  let r ← ksz8863_spi_read8 hw r.2 KSZ8863_REG_CHIP_ID_1
  let chipid := (chipid ||| ((r.1 &&& 0xfe) <<< 8)) % 2 ^ 16
  some (chipid, r.2)

/-- The lines `ksz8863_probe` writes to the kernel log. -/
inductive dev_msg where
  | info_probe
  | err_alloc
  | err_invalid_chip_id (chipid : Nat)
  | info_found (revision : Nat)
  deriving DecidableEq, Repr

/-- The identity check of `ksz8863_probe` on the value `ksz8863_get_chipid`
returned (from the comparison with `KSZ8863_CHIP_ID` to the final `return 0`):
the status and the lines logged. -/
def ksz8863_probe_check (chipid : Nat) : Int × List dev_msg :=
  if KSZ8863_CHIP_ID ≠ (chipid &&& KSZ8863_CHIP_ID_MASK) then
    (-ENODEV, [dev_msg.err_invalid_chip_id chipid])
  else
    (0, [dev_msg.info_found (chipid &&& KSZ8863_REVISION_MASK)])

/-- The function `ksz8863_probe(spi)`; `kzalloc_ok` tells whether `kzalloc`
returned memory. Returns the status, the lines logged and the device. -/
def ksz8863_probe {σ : Type} (hw : spi_hw σ) (spi : spi_device σ) (kzalloc_ok : Bool) :
    Option (Int × List dev_msg × spi_device σ) :=
  if !kzalloc_ok then some (-ENOMEM, [dev_msg.info_probe, dev_msg.err_alloc], spi)
  else do
    let data : ksz8863_data σ := { spi := spi }
    let r ← ksz8863_get_chipid hw data
    let c := ksz8863_probe_check r.1
    some (c.1, dev_msg.info_probe :: c.2, r.2.spi)

/-- The transfer `ksz8863_spi_read` submits for `count` registers from `addr`. -/
def read_xfer (addr count : Nat) : spi_transfer :=
  { tx := KSZ8863_SPI_READ_CMD :: addr :: List.replicate count 0, rx := true, length := count + 2 }

/-- The transfer `ksz8863_spi_write` submits for the first `count` bytes of `src`. -/
def write_xfer (addr : Nat) (src : List Nat) (count : Nat) : spi_transfer :=
  { tx := KSZ8863_SPI_WRITE_CMD :: addr :: src.take count, rx := false, length := count + 2 }

/-- The device after one more transfer `t` on the hardware `hw`. -/
def after_xfer {σ : Type} (hw : spi_hw σ) (data : ksz8863_data σ) (t : spi_transfer) :
    ksz8863_data σ :=
  { spi := { state := (hw data.spi.state t).2.2, log := data.spi.log ++ [t] } }

/-- A link whose successful transfers deliver what an SPI controller delivers:
as many bytes as the transfer is long, each of them a `u8`. A transfer that
fails may deliver anything, or nothing. -/
def spi_hw_ok {σ : Type} (hw : spi_hw σ) : Prop :=
  ∀ s t, (hw s t).1 = 0 → (hw s t).2.1.length = t.length ∧ ∀ b ∈ (hw s t).2.1, b < 256

/-! ## Test doubles for the link -/

/-- A link on which every transfer fails with `-EIO`. -/
def dead_hw : spi_hw Unit := fun s t => (-5, List.replicate t.length 0, s)

/-- A link that dies after its first transfer: the first one succeeds and clocks
in the byte 0x88 at every position, every later one fails with `-EIO` and
delivers nothing. The state counts the transfers. -/
def half_dead_hw : spi_hw Nat := fun n t =>
  if n = 0 then (0, List.replicate t.length 0x88, n + 1) else (-5, [], n + 1)

/-- A register file of 256 registers behind the link: a frame `[0x02, A, B...]`
stores `B` at consecutive addresses from `A`, a frame `[0x03, A, ...]` is
answered with the stored bytes from position 2 on. Every transfer succeeds. -/
def regfile_hw : spi_hw (Nat → Nat) := fun regs t =>
  match t.tx with
  | cmd :: addr :: payload =>
    if cmd = KSZ8863_SPI_WRITE_CMD then
      (0, List.replicate t.length 0,
        fun a => if addr ≤ a ∧ a < addr + payload.length ∧ a ≤ 0xff
          then payload.getD (a - addr) 0 else regs a)
    else if cmd = KSZ8863_SPI_READ_CMD then
      (0, 0 :: 0 :: (List.range payload.length).map
        (fun i => if addr + i ≤ 0xff then regs (addr + i) else 0), regs)
    else (0, List.replicate t.length 0, regs)
  | _ => (0, List.replicate t.length 0, regs)

/-- The identity registers of a chip: `r0` at address 0, `r1` at address 1. -/
def id_regs (r0 r1 : Nat) : Nat → Nat := fun a => if a = 0 then r0 else if a = 1 then r1 else 0

/-- A device on a fresh link in state `s`. -/
def fresh {σ : Type} (s : σ) : ksz8863_data σ := { spi := { state := s, log := [] } }

/-! ## Lemmas on the driver functions -/

theorem determinate_map_some (l : List Nat) : determinate (l.map some) = some l := by
  induction l with
  | nil => rfl
  | cons a t ih => simp [determinate, ih]

theorem read_too_long {σ : Type} (hw : spi_hw σ) (data : ksz8863_data σ) (dst : Buf)
    (addr count : Nat) (hc : KSZ8863_MAX_XFER_VALUES < count) :
    ksz8863_spi_read hw data dst addr count = some (-EINVAL, dst, data) := by
  simp [ksz8863_spi_read, hc]

theorem write_too_long {σ : Type} (hw : spi_hw σ) (data : ksz8863_data σ) (src : List Nat)
    (addr count : Nat) (hc : KSZ8863_MAX_XFER_VALUES < count) :
    ksz8863_spi_write hw data src addr count = some (-EINVAL, data) := by
  simp [ksz8863_spi_write, hc]

theorem read_fault {σ : Type} (hw : spi_hw σ) (data : ksz8863_data σ) (dst : Buf)
    (addr count : Nat) (hc : count ≤ KSZ8863_MAX_XFER_VALUES)
    (hf : (hw data.spi.state (read_xfer addr count)).1 ≠ 0) :
    ksz8863_spi_read hw data dst addr count =
      some ((hw data.spi.state (read_xfer addr count)).1, dst,
        after_xfer hw data (read_xfer addr count)) := by
  simp only [KSZ8863_MAX_XFER_VALUES] at hc
  interval_cases count <;>
    simp only [read_xfer, KSZ8863_SPI_READ_CMD, List.replicate] at hf <;>
    simp [ksz8863_spi_read, KSZ8863_MAX_XFER, KSZ8863_MAX_XFER_VALUES, memset, store, memcpy,
      ksz8863_spi_xfer, clock_out, clock_in, determinate, spi_sync, read_xfer, after_xfer,
      KSZ_SPI_READ_CMD, KSZ8863_SPI_READ_CMD, List.replicate, hf]

theorem read_done {σ : Type} (hw : spi_hw σ) (data : ksz8863_data σ) (dst : Buf)
    (addr count : Nat) (hc : count ≤ KSZ8863_MAX_XFER_VALUES) (hd : count ≤ dst.length)
    (hf : (hw data.spi.state (read_xfer addr count)).1 = 0) :
    ksz8863_spi_read hw data dst addr count =
      some (0,
        (List.range count).map (fun i => (hw data.spi.state (read_xfer addr count)).2.1[i + 2]?)
          ++ dst.drop count,
        after_xfer hw data (read_xfer addr count)) := by
  simp only [KSZ8863_MAX_XFER_VALUES] at hc
  interval_cases count <;>
    simp only [read_xfer, KSZ8863_SPI_READ_CMD, List.replicate] at hf <;>
    simp [ksz8863_spi_read, KSZ8863_MAX_XFER, KSZ8863_MAX_XFER_VALUES, memset, store, memcpy,
      ksz8863_spi_xfer, clock_out, clock_in, determinate, spi_sync, read_xfer, after_xfer,
      KSZ_SPI_READ_CMD, KSZ8863_SPI_READ_CMD, List.replicate, List.range, List.range.loop, hf, hd]

theorem write_done {σ : Type} (hw : spi_hw σ) (data : ksz8863_data σ) (src : List Nat)
    (addr count : Nat) (hc : count ≤ KSZ8863_MAX_XFER_VALUES) (hs : count ≤ src.length) :
    ksz8863_spi_write hw data src addr count =
      some ((hw data.spi.state (write_xfer addr src count)).1,
        after_xfer hw data (write_xfer addr src count)) := by
  simp only [KSZ8863_MAX_XFER_VALUES] at hc
  have hdet : ∀ n, determinate (List.take n (List.map some src)) = some (List.take n src) := by
    intro n
    rw [← List.map_take]
    exact determinate_map_some _
  interval_cases count <;>
    simp [ksz8863_spi_write, KSZ8863_MAX_XFER, KSZ8863_MAX_XFER_VALUES, store, memcpy,
      ksz8863_spi_xfer, clock_out, determinate, spi_sync, write_xfer, after_xfer,
      KSZ_SPI_WRITE_CMD, KSZ8863_SPI_WRITE_CMD, List.replicate, hs, hdet,
      List.take_append_eq_append_take, List.take_take]


theorem read8_fault {σ : Type} (hw : spi_hw σ) (data : ksz8863_data σ) (addr : Nat)
    (hf : (hw data.spi.state (read_xfer addr 1)).1 ≠ 0) :
    ksz8863_spi_read8 hw data addr = some (0, after_xfer hw data (read_xfer addr 1)) := by
  have h := read_fault hw data [none] addr 1 (by decide) hf
  simp [ksz8863_spi_read8, h, hf]

theorem read8_done {σ : Type} (hw : spi_hw σ) (data : ksz8863_data σ) (addr v : Nat)
    (hf : (hw data.spi.state (read_xfer addr 1)).1 = 0)
    (hv : (hw data.spi.state (read_xfer addr 1)).2.1[2]? = some v) :
    ksz8863_spi_read8 hw data addr = some (v, after_xfer hw data (read_xfer addr 1)) := by
  have h := read_done hw data [none] addr 1 (by decide) (by simp) hf
  simp [ksz8863_spi_read8, h, load, hv]

theorem read8_ok {σ : Type} (hw : spi_hw σ) (hok : spi_hw_ok hw) (data : ksz8863_data σ)
    (addr : Nat) :
    ∃ v, v < 256 ∧
      ksz8863_spi_read8 hw data addr = some (v, after_xfer hw data (read_xfer addr 1)) ∧
      ((hw data.spi.state (read_xfer addr 1)).1 ≠ 0 → v = 0) := by
  by_cases hf : (hw data.spi.state (read_xfer addr 1)).1 = 0
  · obtain ⟨hlen, hb⟩ := hok data.spi.state (read_xfer addr 1) hf
    have h2 : 2 < (hw data.spi.state (read_xfer addr 1)).2.1.length := by
      rw [hlen]; simp [read_xfer]
    refine ⟨(hw data.spi.state (read_xfer addr 1)).2.1[2], hb _ (List.getElem_mem _), ?_, ?_⟩
    · exact read8_done hw data addr _ hf (List.getElem?_eq_getElem h2)
    · intro h; exact absurd hf h
  · exact ⟨0, by decide, read8_fault hw data addr hf, fun _ => rfl⟩

set_option maxRecDepth 100000 in
theorem chipid_u16 (r0 r1 : Nat) (h0 : r0 < 256) (h1 : r1 < 256) :
    (r0 % 2 ^ 16 ||| ((r1 &&& 0xfe) <<< 8)) % 2 ^ 16 = r0 ||| ((r1 &&& 0xfe) <<< 8) := by
  have hb : ∀ r < 256, ((r &&& 0xfe) <<< 8) < 2 ^ 16 := by decide
  have hr : r0 < 2 ^ 16 := by omega
  rw [Nat.mod_eq_of_lt hr, Nat.mod_eq_of_lt (Nat.or_lt_two_pow hr (hb r1 h1))]

theorem byte_or_shift (r0 x : Nat) (h0 : r0 < 256) : r0 ||| (x <<< 8) = 256 * x + r0 := by
  have h : r0 < 2 ^ 8 := by omega
  have := Nat.mul_add_lt_is_or h x
  rw [Nat.shiftLeft_eq, Nat.or_comm, Nat.mul_comm]
  simpa using this.symm

theorem chipid_and (r0 r1 m : Nat) :
    (r0 ||| ((r1 &&& 0xfe) <<< 8)) &&& m = (r0 &&& m) ||| (((r1 &&& 0xfe) <<< 8) &&& m) :=
  Nat.and_distrib_right _ _ _

set_option maxRecDepth 100000 in
theorem chipid_masked (r0 r1 : Nat) (h0 : r0 < 256) (h1 : r1 < 256) :
    (r0 ||| ((r1 &&& 0xfe) <<< 8)) &&& KSZ8863_CHIP_ID_MASK = 256 * (r1 &&& 0xf0) + r0 := by
  have ha : ∀ r < 256, r &&& 0xf0ff = r := by decide
  have hb : ∀ r < 256, ((r &&& 0xfe) <<< 8) &&& 0xf0ff = (r &&& 0xf0) <<< 8 := by decide
  rw [KSZ8863_CHIP_ID_MASK, chipid_and, ha r0 h0, hb r1 h1, byte_or_shift r0 _ h0]

theorem chipid_check_iff (r0 r1 : Nat) (h0 : r0 < 256) (h1 : r1 < 256) :
    (r0 ||| ((r1 &&& 0xfe) <<< 8)) &&& KSZ8863_CHIP_ID_MASK = KSZ8863_CHIP_ID ↔
      r0 = 0x88 ∧ r1 &&& 0xf0 = 0x30 := by
  rw [chipid_masked r0 r1 h0 h1, KSZ8863_CHIP_ID]
  omega

set_option maxRecDepth 100000 in
theorem chipid_bit8 (r0 r1 : Nat) (h0 : r0 < 256) (h1 : r1 < 256) :
    (r0 ||| ((r1 &&& 0xfe) <<< 8)) &&& 0x100 = 0 := by
  have ha : ∀ r < 256, r &&& 0x100 = 0 := by decide
  have hb : ∀ r < 256, ((r &&& 0xfe) <<< 8) &&& 0x100 = 0 := by decide
  rw [chipid_and, ha r0 h0, hb r1 h1]
  rfl

set_option maxRecDepth 100000 in
theorem chipid_revision (r1 : Nat) (h1 : r1 < 256) (h : r1 &&& 0xf0 = 0x30) :
    0x88 ||| ((r1 &&& 0xfe) <<< 8) =
      KSZ8863_CHIP_ID ||| ((0x88 ||| ((r1 &&& 0xfe) <<< 8)) &&& KSZ8863_CHIP_REVISION_MASK) := by
  have hb : ∀ r < 256, r &&& 0xf0 = 0x30 → 0x88 ||| ((r &&& 0xfe) <<< 8) =
      0x3088 ||| ((0x88 ||| ((r &&& 0xfe) <<< 8)) &&& 0x0e00) := by decide
  exact hb r1 h1 h

theorem get_chipid_eq {σ : Type} (hw : spi_hw σ) (data : ksz8863_data σ) (r0 r1 : Nat)
    (d1 d2 : ksz8863_data σ)
    (e0 : ksz8863_spi_read8 hw data KSZ8863_REG_CHIP_ID_0 = some (r0, d1))
    (e1 : ksz8863_spi_read8 hw d1 KSZ8863_REG_CHIP_ID_1 = some (r1, d2))
    (h0 : r0 < 256) (h1 : r1 < 256) :
    ksz8863_get_chipid hw data = some (r0 ||| ((r1 &&& 0xfe) <<< 8), d2) := by
  have h := chipid_u16 r0 r1 h0 h1
  simp only [ksz8863_get_chipid, e0, e1, Option.bind_eq_bind, Option.some_bind]
  rw [h]

theorem get_chipid_ok {σ : Type} (hw : spi_hw σ) (hok : spi_hw_ok hw) (data : ksz8863_data σ) :
    ∃ r0 r1, r0 < 256 ∧ r1 < 256 ∧
      ksz8863_get_chipid hw data = some (r0 ||| ((r1 &&& 0xfe) <<< 8),
        after_xfer hw (after_xfer hw data (read_xfer 0 1)) (read_xfer 1 1)) ∧
      ((hw data.spi.state (read_xfer 0 1)).1 ≠ 0 → r0 = 0) ∧
      ((hw (hw data.spi.state (read_xfer 0 1)).2.2 (read_xfer 1 1)).1 ≠ 0 → r1 = 0) := by
  obtain ⟨r0, h0, e0, f0⟩ := read8_ok hw hok data 0
  obtain ⟨r1, h1, e1, f1⟩ := read8_ok hw hok (after_xfer hw data (read_xfer 0 1)) 1
  exact ⟨r0, r1, h0, h1, get_chipid_eq hw data r0 r1 _ _ e0 e1 h0 h1, f0, f1⟩

theorem range_lookup_drop_two (resp : List Nat) (count : Nat) (h : resp.length = count + 2) :
    (List.range count).map (fun i => resp[i + 2]?) = (resp.drop 2).map some := by
  apply List.ext_getElem
  · simp [h]
  · intro i h1 h2
    simp at h1
    have h3 : 2 + i < resp.length := by omega
    simp [List.getElem?_eq_getElem h3, Nat.add_comm]

theorem regfile_write_status (regs : Nat → Nat) (A : Nat) (B : List Nat) (n : Nat) :
    (regfile_hw regs (write_xfer A B n)).1 = 0 := by
  simp [regfile_hw, write_xfer]

theorem regfile_write_state (regs : Nat → Nat) (A : Nat) (B : List Nat) :
    (regfile_hw regs (write_xfer A B B.length)).2.2 =
      fun a => if A ≤ a ∧ a < A + B.length ∧ a ≤ 0xff then B.getD (a - A) 0 else regs a := by
  simp [regfile_hw, write_xfer]

theorem regfile_read_status (regs : Nat → Nat) (A n : Nat) :
    (regfile_hw regs (read_xfer A n)).1 = 0 := by
  simp [regfile_hw, read_xfer, KSZ8863_SPI_READ_CMD, KSZ8863_SPI_WRITE_CMD]

theorem regfile_read_bytes (regs : Nat → Nat) (A n : Nat) :
    (List.range n).map (fun i => (regfile_hw regs (read_xfer A n)).2.1[i + 2]?) =
      (List.range n).map (fun i => some (if A + i ≤ 0xff then regs (A + i) else 0)) := by
  apply List.map_congr_left
  intro i hi
  have hi2 : i < n := List.mem_range.mp hi
  simp [regfile_hw, read_xfer, KSZ8863_SPI_READ_CMD, KSZ8863_SPI_WRITE_CMD, hi2]

theorem regfile_stored (regs : Nat → Nat) (A : Nat) (B : List Nat) (h : A + B.length ≤ 256) :
    (List.range B.length).map (fun i => some (if A + i ≤ 0xff then
      (fun a => if A ≤ a ∧ a < A + B.length ∧ a ≤ 0xff then B.getD (a - A) 0 else regs a) (A + i)
      else 0)) = B.map some := by
  apply List.ext_getElem
  · simp
  · intro i h1 h2
    simp at h1
    have h3 : A + i ≤ 255 := by omega
    simp [h1, h3, List.getD_eq_getElem]

theorem probe_check_passes_iff (chipid : Nat) :
    (ksz8863_probe_check chipid).1 = 0 ↔ chipid &&& KSZ8863_CHIP_ID_MASK = KSZ8863_CHIP_ID := by
  by_cases h : KSZ8863_CHIP_ID = chipid &&& KSZ8863_CHIP_ID_MASK
  · simp [ksz8863_probe_check, h.symm]
  · have h2 : ¬ (chipid &&& KSZ8863_CHIP_ID_MASK = KSZ8863_CHIP_ID) := fun e => h e.symm
    simp [ksz8863_probe_check, h, h2, ENODEV]

theorem probe_check_found_iff (chipid rev : Nat) :
    dev_msg.info_found rev ∈ (ksz8863_probe_check chipid).2 →
      chipid &&& KSZ8863_CHIP_ID_MASK = KSZ8863_CHIP_ID := by
  by_cases h : KSZ8863_CHIP_ID = chipid &&& KSZ8863_CHIP_ID_MASK
  · intro _; exact h.symm
  · simp [ksz8863_probe_check, h]

theorem probe_check_rejects (chipid : Nat)
    (h : chipid &&& KSZ8863_CHIP_ID_MASK ≠ KSZ8863_CHIP_ID) :
    ksz8863_probe_check chipid = (-ENODEV, [dev_msg.err_invalid_chip_id chipid]) := by
  have h2 : KSZ8863_CHIP_ID ≠ chipid &&& KSZ8863_CHIP_ID_MASK := fun e => h e.symm
  simp [ksz8863_probe_check, h2]

theorem half_dead_hw_ok : spi_hw_ok half_dead_hw := by
  intro n t h
  by_cases hn : n = 0
  · simp [half_dead_hw, hn]
  · simp [half_dead_hw, hn] at h

theorem read_total {σ : Type} (hw : spi_hw σ) (data : ksz8863_data σ) (dst : Buf)
    (addr count : Nat) (hc : count ≤ KSZ8863_MAX_XFER_VALUES) (hd : count ≤ dst.length) :
    ∃ ret dst1, ksz8863_spi_read hw data dst addr count =
      some (ret, dst1, after_xfer hw data (read_xfer addr count)) := by
  by_cases hf : (hw data.spi.state (read_xfer addr count)).1 = 0
  · exact ⟨_, _, read_done hw data dst addr count hc hd hf⟩
  · exact ⟨_, _, read_fault hw data dst addr count hc hf⟩

/-! ## The claims -/

/-- C1: for every address and every count above `KSZ8863_MAX_XFER_VALUES` (8),
`ksz8863_spi_read` and `ksz8863_spi_write` both return `-EINVAL`; the buffer
of the caller, the link state and the log of submitted transfers are unchanged, so no
transfer reached `spi_sync`. -/
theorem C1_oversized_count_rejected {σ : Type} (hw : spi_hw σ) (data : ksz8863_data σ)
    (dst : Buf) (src : List Nat) (addr count : Nat) (h : 8 < count) :
    ksz8863_spi_read hw data dst addr count = some (-EINVAL, dst, data) ∧
    ksz8863_spi_write hw data src addr count = some (-EINVAL, data) :=
  ⟨read_too_long hw data dst addr count h, write_too_long hw data src addr count h⟩

/-- The rejection at count 9, on the register file. -/
theorem C1_oversized_count_rejected_witness :
    8 < 9 ∧
    ksz8863_spi_read regfile_hw (fresh (id_regs 0x88 0x31)) (List.replicate 9 none) 0 9 =
      some (-22, List.replicate 9 none, fresh (id_regs 0x88 0x31)) ∧
    ksz8863_spi_write regfile_hw (fresh (id_regs 0x88 0x31)) [1, 2, 3, 4, 5, 6, 7, 8, 9] 0 9 =
      some (-22, fresh (id_regs 0x88 0x31)) :=
  ⟨by decide, C1_oversized_count_rejected regfile_hw (fresh (id_regs 0x88 0x31))
    (List.replicate 9 none) [1, 2, 3, 4, 5, 6, 7, 8, 9] 0 9 (by decide)⟩

/-- C2: for every address and every count in 0..=8 (with a destination buffer of at
least `count` bytes), when the link answers the transfer with status 0,
`ksz8863_spi_read` returns 0, submits exactly one transfer, of length `count + 2`
with the outgoing bytes `[0x03, addr, 0 × count]`, and leaves in `dst[0..count)`
the bytes clocked in at positions `2..2+count`; response bytes 0 and 1 do not
appear in the result. When the response has the length of the transfer, these
are its last `count` bytes. -/
theorem C2_read_frame_and_result {σ : Type} (hw : spi_hw σ) (data : ksz8863_data σ)
    (dst : Buf) (addr count : Nat) (resp : List Nat) (s : σ)
    (hc : count ≤ 8) (hd : count ≤ dst.length)
    (hs : hw data.spi.state
      { tx := 0x03 :: addr :: List.replicate count 0, rx := true, length := count + 2 }
        = (0, resp, s)) :
    ksz8863_spi_read hw data dst addr count =
      some (0, (List.range count).map (fun i => resp[i + 2]?) ++ dst.drop count,
        { spi := { state := s,
                   log := data.spi.log ++
                     [{ tx := 0x03 :: addr :: List.replicate count 0, rx := true,
                        length := count + 2 }] } }) ∧
    (resp.length = count + 2 →
      (List.range count).map (fun i => resp[i + 2]?) = (resp.drop 2).map some) := by
  refine ⟨?_, range_lookup_drop_two resp count⟩
  have h := read_done hw data dst addr count hc hd (by simp [read_xfer, KSZ8863_SPI_READ_CMD, hs])
  simpa [read_xfer, KSZ8863_SPI_READ_CMD, after_xfer, hs] using h

/-- A read of two registers from address 0 of a register file holding 0x88 and 0x31. -/
theorem C2_read_frame_and_result_witness :
    ksz8863_spi_read regfile_hw (fresh (id_regs 0x88 0x31)) [none, none, none] 0 2 =
      some (0, [some 0x88, some 0x31, none],
        { spi := { state := id_regs 0x88 0x31,
                   log := [{ tx := [0x03, 0, 0, 0], rx := true, length := 4 }] } }) :=
  (C2_read_frame_and_result regfile_hw (fresh (id_regs 0x88 0x31)) [none, none, none] 0 2
    [0, 0, 0x88, 0x31] (id_regs 0x88 0x31) (by decide) (by decide) rfl).1

/-- C3: for every address and every data of length n in 0..=8,
`ksz8863_spi_write` submits exactly one transfer, of length `n + 2` with the
outgoing bytes `[0x02, addr, data[0], ..., data[n-1]]` and no receive buffer,
and returns the status of that transfer (0 exactly when the transfer succeeded). -/
theorem C3_write_frame_and_status {σ : Type} (hw : spi_hw σ) (data : ksz8863_data σ)
    (src : List Nat) (addr : Nat) (hn : src.length ≤ 8) :
    ksz8863_spi_write hw data src addr src.length =
      some ((hw data.spi.state
              { tx := 0x02 :: addr :: src, rx := false, length := src.length + 2 }).1,
        { spi := { state := (hw data.spi.state
                     { tx := 0x02 :: addr :: src, rx := false, length := src.length + 2 }).2.2,
                   log := data.spi.log ++
                     [{ tx := 0x02 :: addr :: src, rx := false, length := src.length + 2 }] } }) := by
  have h := write_done hw data src addr src.length hn (Nat.le_refl _)
  simpa [write_xfer, KSZ8863_SPI_WRITE_CMD, after_xfer] using h

/-- A write of two bytes to address 0x10 on the dead link: the status is that of the link. -/
theorem C3_write_frame_and_status_witness :
    [0xaa, 0xbb].length ≤ 8 ∧
    ksz8863_spi_write dead_hw (fresh ()) [0xaa, 0xbb] 0x10 2 =
      some (-5, { spi := { state := (),
                           log := [{ tx := [0x02, 0x10, 0xaa, 0xbb], rx := false, length := 4 }] } }) :=
  ⟨by decide, C3_write_frame_and_status dead_hw (fresh ()) [0xaa, 0xbb] 0x10 (by decide)⟩

/-- C4: on the register-file test double `regfile_hw`, for every address `A` and
every byte sequence `B` of at most 8 bytes that does not run past address 0xff,
`ksz8863_spi_write` of `B` to `A` returns 0, and the following
`ksz8863_spi_read` of `B.length` registers from `A` returns 0 and leaves
exactly `B` in the first `B.length` bytes of the destination buffer. -/
theorem C4_write_then_read_round_trip (data : ksz8863_data (Nat → Nat)) (dst : Buf)
    (A : Nat) (B : List Nat)
    (hB : B.length ≤ 8) (hA : A + B.length ≤ 256) (hd : B.length ≤ dst.length) :
    ksz8863_spi_write regfile_hw data B A B.length =
      some (0, after_xfer regfile_hw data (write_xfer A B B.length)) ∧
    ksz8863_spi_read regfile_hw (after_xfer regfile_hw data (write_xfer A B B.length))
        dst A B.length =
      some (0, B.map some ++ dst.drop B.length,
        after_xfer regfile_hw (after_xfer regfile_hw data (write_xfer A B B.length))
          (read_xfer A B.length)) := by
  constructor
  · rw [write_done regfile_hw data B A B.length hB (Nat.le_refl _), regfile_write_status]
  · rw [read_done regfile_hw _ dst A B.length hB hd (regfile_read_status _ _ _),
      regfile_read_bytes]
    simp only [after_xfer]
    rw [regfile_write_state, regfile_stored _ A B hA]

/-- The round trip of three bytes at address 0xfd, the last address that fits. -/
theorem C4_write_then_read_round_trip_witness :
    ksz8863_spi_write regfile_hw (fresh (id_regs 0x88 0x31)) [0x12, 0x34, 0x56] 0xfd 3 =
      some (0, after_xfer regfile_hw (fresh (id_regs 0x88 0x31))
        { tx := [0x02, 0xfd, 0x12, 0x34, 0x56], rx := false, length := 5 }) ∧
    ksz8863_spi_read regfile_hw (after_xfer regfile_hw (fresh (id_regs 0x88 0x31))
        { tx := [0x02, 0xfd, 0x12, 0x34, 0x56], rx := false, length := 5 })
        [none, none, none, none] 0xfd 3 =
      some (0, [some 0x12, some 0x34, some 0x56, none],
        after_xfer regfile_hw (after_xfer regfile_hw (fresh (id_regs 0x88 0x31))
          { tx := [0x02, 0xfd, 0x12, 0x34, 0x56], rx := false, length := 5 })
          { tx := [0x03, 0xfd, 0, 0, 0], rx := true, length := 5 }) :=
  C4_write_then_read_round_trip (fresh (id_regs 0x88 0x31)) [none, none, none, none] 0xfd
    [0x12, 0x34, 0x56] (by decide) (by decide) (by decide)

/-- C5: when the read of register `KSZ8863_REG_CHIP_ID_0` (0x00) succeeds with
the byte `r0` and the following read of register `KSZ8863_REG_CHIP_ID_1` (0x01)
succeeds with the byte `r1`, `ksz8863_get_chipid` returns
`r0 | ((r1 & 0xfe) << 8)`, having submitted exactly these two transfers, register
0x00 first and register 0x01 second. The witness is the case `r0 = 0x88`,
`r1 = 0x31`, which gives `0x3088`. -/
theorem C5_chipid_assembly {σ : Type} (hw : spi_hw σ) (data : ksz8863_data σ)
    (r0 r1 : Nat) (resp0 resp1 : List Nat) (s1 s2 : σ)
    (h0 : hw data.spi.state { tx := [0x03, 0x00, 0], rx := true, length := 3 } = (0, resp0, s1))
    (hr0 : resp0[2]? = some r0)
    (h1 : hw s1 { tx := [0x03, 0x01, 0], rx := true, length := 3 } = (0, resp1, s2))
    (hr1 : resp1[2]? = some r1)
    (hb0 : r0 < 256) (hb1 : r1 < 256) :
    ksz8863_get_chipid hw data =
      some (r0 ||| ((r1 &&& 0xfe) <<< 8),
        { spi := { state := s2,
                   log := data.spi.log ++
                     [{ tx := [0x03, 0x00, 0], rx := true, length := 3 },
                      { tx := [0x03, 0x01, 0], rx := true, length := 3 }] } }) := by
  have e0 := read8_done hw data 0 r0
    (by simp [read_xfer, KSZ8863_SPI_READ_CMD, h0])
    (by simp [read_xfer, KSZ8863_SPI_READ_CMD, h0, hr0])
  have e1 := read8_done hw (after_xfer hw data (read_xfer 0 1)) 1 r1
    (by simp [read_xfer, KSZ8863_SPI_READ_CMD, after_xfer, h0, h1])
    (by simp [read_xfer, KSZ8863_SPI_READ_CMD, after_xfer, h0, h1, hr1])
  rw [get_chipid_eq hw data r0 r1 _ _ e0 e1 hb0 hb1]
  simp [read_xfer, KSZ8863_SPI_READ_CMD, after_xfer, h0, h1]

/-- The registers 0x88 and 0x31 give the identity 0x3088. -/
theorem C5_chipid_assembly_witness :
    ksz8863_get_chipid regfile_hw (fresh (id_regs 0x88 0x31)) =
      some (0x3088,
        { spi := { state := id_regs 0x88 0x31,
                   log := [{ tx := [0x03, 0x00, 0], rx := true, length := 3 },
                           { tx := [0x03, 0x01, 0], rx := true, length := 3 }] } }) :=
  C5_chipid_assembly regfile_hw (fresh (id_regs 0x88 0x31)) 0x88 0x31
    [0, 0, 0x88] [0, 0, 0x31] (id_regs 0x88 0x31) (id_regs 0x88 0x31)
    rfl rfl rfl rfl (by decide) (by decide)

/-- C6: for every identity value `chipid`, the check of `ksz8863_probe` returns 0
exactly when `(chipid & 0xf0ff) == 0x3088`; on a mismatch it returns `-ENODEV`
and the error line carries the unmasked `chipid`. The value `0x3288` is
accepted, the value `0x1088` is rejected with `-ENODEV` and `0x1088` in the
error line. -/
theorem C6_identity_mask_check (chipid : Nat) :
    ((ksz8863_probe_check chipid).1 = 0 ↔
      chipid &&& KSZ8863_CHIP_ID_MASK = KSZ8863_CHIP_ID) ∧
    (chipid &&& KSZ8863_CHIP_ID_MASK ≠ KSZ8863_CHIP_ID →
      ksz8863_probe_check chipid = (-ENODEV, [dev_msg.err_invalid_chip_id chipid])) ∧
    (ksz8863_probe_check 0x3288).1 = 0 ∧
    ksz8863_probe_check 0x1088 = (-ENODEV, [dev_msg.err_invalid_chip_id 0x1088]) := by
  refine ⟨?_, ?_, by decide, by decide⟩
  · by_cases h : KSZ8863_CHIP_ID = chipid &&& KSZ8863_CHIP_ID_MASK
    · simp [ksz8863_probe_check, h.symm]
    · have h2 : ¬ (chipid &&& KSZ8863_CHIP_ID_MASK = KSZ8863_CHIP_ID) := fun e => h e.symm
      simp [ksz8863_probe_check, h, h2, ENODEV]
  · intro h
    have h2 : KSZ8863_CHIP_ID ≠ chipid &&& KSZ8863_CHIP_ID_MASK := fun e => h e.symm
    simp [ksz8863_probe_check, h2]

/-- The identity 0x1088 is rejected with `-ENODEV` and appears unmasked in the error line. -/
theorem C6_identity_mask_check_witness :
    0x1088 &&& KSZ8863_CHIP_ID_MASK ≠ KSZ8863_CHIP_ID ∧
    ksz8863_probe_check 0x1088 = (-19, [dev_msg.err_invalid_chip_id 0x1088]) :=
  ⟨by decide, (C6_identity_mask_check 0x1088).2.1 (by decide)⟩

/-- C7, as the code has it: for every address, when the underlying transfer
fails, `ksz8863_spi_read8` still returns a byte, the byte 0, after that one
transfer; the failure status is known to `ksz8863_spi_read` only. -/
theorem C7_read8_returns_zero_on_fault {σ : Type} (hw : spi_hw σ) (data : ksz8863_data σ)
    (addr : Nat)
    (hf : (hw data.spi.state { tx := [0x03, addr, 0], rx := true, length := 3 }).1 ≠ 0) :
    ksz8863_spi_read8 hw data addr =
      some (0, { spi := { state := (hw data.spi.state
                            { tx := [0x03, addr, 0], rx := true, length := 3 }).2.2,
                          log := data.spi.log ++
                            [{ tx := [0x03, addr, 0], rx := true, length := 3 }] } }) ∧
    ksz8863_spi_read hw data [none] addr 1 =
      some ((hw data.spi.state { tx := [0x03, addr, 0], rx := true, length := 3 }).1, [none],
        { spi := { state := (hw data.spi.state
                     { tx := [0x03, addr, 0], rx := true, length := 3 }).2.2,
                   log := data.spi.log ++
                     [{ tx := [0x03, addr, 0], rx := true, length := 3 }] } }) := by
  have hf2 : (hw data.spi.state (read_xfer addr 1)).1 ≠ 0 := by
    simpa [read_xfer, KSZ8863_SPI_READ_CMD] using hf
  constructor
  · have h := read8_fault hw data addr hf2
    simpa [read_xfer, KSZ8863_SPI_READ_CMD, after_xfer] using h
  · have h := read_fault hw data [none] addr 1 (by decide) hf2
    simpa [read_xfer, KSZ8863_SPI_READ_CMD, after_xfer] using h

/-- On the dead link the read of register 0x01 yields the byte 0. -/
theorem C7_read8_returns_zero_on_fault_witness :
    ksz8863_spi_read8 dead_hw (fresh ()) 0x01 =
      some (0, { spi := { state := (),
                          log := [{ tx := [0x03, 0x01, 0], rx := true, length := 3 }] } }) :=
  (C7_read8_returns_zero_on_fault dead_hw (fresh ()) 0x01 (by decide)).1

/-- C7, as the claim states it, fails: on the link `dead_hw` the transfer of
the read of register 0 fails and `ksz8863_spi_read8` returns the byte 0, the
very value it returns on the register file whose register 0 holds 0x00, where
the transfer succeeds. -/
theorem C7_counterexample :
    (dead_hw () { tx := [0x03, 0x00, 0], rx := true, length := 3 }).1 ≠ 0 ∧
    (ksz8863_spi_read8 dead_hw (fresh ()) 0x00).map Prod.fst = some 0 ∧
    (regfile_hw (id_regs 0x00 0x31) { tx := [0x03, 0x00, 0], rx := true, length := 3 }).1 = 0 ∧
    (ksz8863_spi_read8 regfile_hw (fresh (id_regs 0x00 0x31)) 0x00).map Prod.fst = some 0 := by
  refine ⟨by decide, ?_, by decide, ?_⟩
  · rw [read8_fault dead_hw (fresh ()) 0 (by decide)]
    rfl
  · rw [read8_done regfile_hw (fresh (id_regs 0x00 0x31)) 0 0 (by decide) (by decide)]
    rfl

/-- C8: on every link whose successful transfers deliver bytes (a failed
transfer may deliver anything or nothing), when the transfer of at least one of
the two identification reads (register 0x00, then register 0x01) fails,
whatever the other one does, `ksz8863_probe` returns a non-zero status (`-ENODEV`, or
`-ENOMEM` when `kzalloc` failed) and logs no "Found KSZ8863" line. And whenever
`ksz8863_probe` returns 0 or logs that line, the value `ksz8863_get_chipid`
returned satisfies `(chipid & 0xf0ff) == 0x3088`. -/
theorem C8_probe_fails_on_faulty_link {σ : Type} (hw : spi_hw σ) (spi : spi_device σ)
    (kzalloc_ok : Bool) :
    (spi_hw_ok hw →
      ((hw spi.state { tx := [0x03, 0x00, 0], rx := true, length := 3 }).1 ≠ 0 ∨
       (hw (hw spi.state { tx := [0x03, 0x00, 0], rx := true, length := 3 }).2.2
          { tx := [0x03, 0x01, 0], rx := true, length := 3 }).1 ≠ 0) →
      ∃ ret msgs spi1, ksz8863_probe hw spi kzalloc_ok = some (ret, msgs, spi1) ∧
        ret ≠ 0 ∧ (ret = -ENODEV ∨ ret = -ENOMEM) ∧ ∀ rev, dev_msg.info_found rev ∉ msgs) ∧
    (∀ ret msgs spi1, ksz8863_probe hw spi kzalloc_ok = some (ret, msgs, spi1) →
      (ret = 0 ∨ ∃ rev, dev_msg.info_found rev ∈ msgs) →
      ∃ chipid data1, ksz8863_get_chipid hw { spi := spi } = some (chipid, data1) ∧
        chipid &&& KSZ8863_CHIP_ID_MASK = KSZ8863_CHIP_ID) := by
  constructor
  · intro hok hf
    cases kzalloc_ok with
    | false =>
      exact ⟨-ENOMEM, [dev_msg.info_probe, dev_msg.err_alloc], spi, by simp [ksz8863_probe],
        by decide, Or.inr rfl, by simp⟩
    | true =>
      obtain ⟨r0, r1, hb0, hb1, e, f0, f1⟩ := get_chipid_ok hw hok { spi := spi }
      have hrej : (r0 ||| ((r1 &&& 0xfe) <<< 8)) &&& KSZ8863_CHIP_ID_MASK ≠ KSZ8863_CHIP_ID := by
        intro hpass
        obtain ⟨p0, p1⟩ := (chipid_check_iff r0 r1 hb0 hb1).mp hpass
        rcases hf with hf | hf
        · have := f0 (by simpa [read_xfer, KSZ8863_SPI_READ_CMD] using hf)
          omega
        · have := f1 (by simpa [read_xfer, KSZ8863_SPI_READ_CMD] using hf)
          subst this
          simp at p1
      refine ⟨-ENODEV,
        [dev_msg.info_probe, dev_msg.err_invalid_chip_id (r0 ||| ((r1 &&& 0xfe) <<< 8))],
        (after_xfer hw (after_xfer hw { spi := spi } (read_xfer 0 1)) (read_xfer 1 1)).spi,
        ?_, by decide, Or.inl rfl, ?_⟩
      · have hc := probe_check_rejects _ hrej
        simp [ksz8863_probe, e, hc]
      · simp
  · intro ret msgs spi1 hp hret
    cases kzalloc_ok with
    | false =>
      simp [ksz8863_probe] at hp
      obtain ⟨h1, h2, _⟩ := hp
      subst h1 h2
      rcases hret with h | ⟨rev, h⟩
      · exact absurd h (by decide)
      · simp at h
    | true =>
      cases e : ksz8863_get_chipid hw { spi := spi } with
      | none => simp [ksz8863_probe, e] at hp
      | some r =>
        simp [ksz8863_probe, e] at hp
        obtain ⟨h1, h2, _⟩ := hp
        subst h1 h2
        refine ⟨r.1, r.2, rfl, ?_⟩
        rcases hret with h | ⟨rev, h⟩
        · exact (probe_check_passes_iff r.1).mp h
        · simp at h
          exact probe_check_found_iff r.1 rev h

/-- On the link that dies after its first transfer, the read of register 0x00
succeeds, the read of register 0x01 fails and delivers nothing, and the probe fails. -/
theorem C8_probe_fails_on_faulty_link_witness :
    spi_hw_ok half_dead_hw ∧
    ((half_dead_hw 0 { tx := [0x03, 0x00, 0], rx := true, length := 3 }).1 ≠ 0 ∨
     (half_dead_hw (half_dead_hw 0 { tx := [0x03, 0x00, 0], rx := true, length := 3 }).2.2
        { tx := [0x03, 0x01, 0], rx := true, length := 3 }).1 ≠ 0) ∧
    ∃ ret msgs spi1,
      ksz8863_probe half_dead_hw { state := 0, log := [] } true = some (ret, msgs, spi1) ∧
      ret ≠ 0 ∧ (ret = -ENODEV ∨ ret = -ENOMEM) ∧ ∀ rev, dev_msg.info_found rev ∉ msgs :=
  ⟨half_dead_hw_ok, Or.inr (by decide),
    (C8_probe_fails_on_faulty_link half_dead_hw { state := 0, log := [] } true).1
      half_dead_hw_ok (Or.inr (by decide))⟩

/-- C9: for every count (every 32-bit one in particular), with source and destination
buffers that hold `count` bytes whenever `count` is in range, `ksz8863_spi_read` and
`ksz8863_spi_write` return a result, that is, no access leaves an array and no
byte is used before it is written. If a transfer was submitted, then
`count ≤ KSZ8863_MAX_XFER_VALUES`, the length `count + 2` is not reduced modulo
2^32 and is at most `KSZ8863_MAX_XFER` (10), the indices 0, 1 and `2 + i` for
`i < count` are below 10, and exactly that one transfer was submitted. A count
above 8 yields `-EINVAL` and nothing else. -/
theorem C9_buffer_bound {σ : Type} (hw : spi_hw σ) (data : ksz8863_data σ)
    (dst : Buf) (src : List Nat) (addr count : Nat)
    (hbuf : count ≤ 8 → count ≤ dst.length ∧ count ≤ src.length) :
    (∃ r, ksz8863_spi_read hw data dst addr count = some r ∧
      (r.2.2.spi.log ≠ data.spi.log →
        count ≤ KSZ8863_MAX_XFER_VALUES ∧ (count + 2) % 2 ^ 32 = count + 2 ∧
        count + 2 ≤ KSZ8863_MAX_XFER ∧
        0 < KSZ8863_MAX_XFER ∧ 1 < KSZ8863_MAX_XFER ∧ (∀ i, i < count → 2 + i < KSZ8863_MAX_XFER) ∧
        r.2.2.spi.log = data.spi.log ++
          [{ tx := 0x03 :: addr :: List.replicate count 0, rx := true, length := count + 2 }])) ∧
    (∃ w, ksz8863_spi_write hw data src addr count = some w ∧
      (w.2.spi.log ≠ data.spi.log →
        count ≤ KSZ8863_MAX_XFER_VALUES ∧ (count + 2) % 2 ^ 32 = count + 2 ∧
        count + 2 ≤ KSZ8863_MAX_XFER ∧
        0 < KSZ8863_MAX_XFER ∧ 1 < KSZ8863_MAX_XFER ∧ (∀ i, i < count → 2 + i < KSZ8863_MAX_XFER) ∧
        w.2.spi.log = data.spi.log ++
          [{ tx := 0x02 :: addr :: src.take count, rx := false, length := count + 2 }])) ∧
    (8 < count →
      ksz8863_spi_read hw data dst addr count = some (-EINVAL, dst, data) ∧
      ksz8863_spi_write hw data src addr count = some (-EINVAL, data)) := by
  have hgt : 8 < count → ksz8863_spi_read hw data dst addr count = some (-EINVAL, dst, data) ∧
      ksz8863_spi_write hw data src addr count = some (-EINVAL, data) :=
    fun h => ⟨read_too_long hw data dst addr count h, write_too_long hw data src addr count h⟩
  by_cases hc : count ≤ 8
  · obtain ⟨hd, hs⟩ := hbuf hc
    have hm : (count + 2) % 2 ^ 32 = count + 2 := Nat.mod_eq_of_lt (by omega)
    have hx : count + 2 ≤ KSZ8863_MAX_XFER := by
      simp only [KSZ8863_MAX_XFER, KSZ8863_MAX_XFER_VALUES]; omega
    have hi : ∀ i, i < count → 2 + i < KSZ8863_MAX_XFER := by
      intro i h
      simp only [KSZ8863_MAX_XFER, KSZ8863_MAX_XFER_VALUES]; omega
    obtain ⟨ret, dst1, hr⟩ := read_total hw data dst addr count hc hd
    refine ⟨⟨_, hr, fun _ => ⟨hc, hm, hx, by decide, by decide, hi, ?_⟩⟩,
      ⟨_, write_done hw data src addr count hc hs,
        fun _ => ⟨hc, hm, hx, by decide, by decide, hi, ?_⟩⟩, hgt⟩
    · simp [after_xfer, read_xfer, KSZ8863_SPI_READ_CMD]
    · simp [after_xfer, write_xfer, KSZ8863_SPI_WRITE_CMD]
  · have h8 : 8 < count := by omega
    obtain ⟨h1, h2⟩ := hgt h8
    exact ⟨⟨_, h1, fun h => absurd rfl h⟩, ⟨_, h2, fun h => absurd rfl h⟩, hgt⟩

/-- Both functions return a result at the largest count, 8. -/
theorem C9_buffer_bound_witness :
    (8 ≤ 8 → 8 ≤ (List.replicate 8 (none : Option Nat)).length ∧
      8 ≤ [1, 2, 3, 4, 5, 6, 7, 8].length) ∧
    (ksz8863_spi_read regfile_hw (fresh (id_regs 0x88 0x31)) (List.replicate 8 none) 0 8).isSome
      = true ∧
    (ksz8863_spi_write regfile_hw (fresh (id_regs 0x88 0x31)) [1, 2, 3, 4, 5, 6, 7, 8] 0 8).isSome
      = true := by
  have hb : 8 ≤ 8 → 8 ≤ (List.replicate 8 (none : Option Nat)).length ∧
      8 ≤ [1, 2, 3, 4, 5, 6, 7, 8].length := fun _ => ⟨by decide, by decide⟩
  obtain ⟨⟨r, hr, _⟩, ⟨w, hw, _⟩, _⟩ := C9_buffer_bound regfile_hw (fresh (id_regs 0x88 0x31))
    (List.replicate 8 none) [1, 2, 3, 4, 5, 6, 7, 8] 0 8 hb
  exact ⟨hb, by rw [hr]; rfl, by rw [hw]; rfl⟩

/-- C10: the identity mask `0xf0ff` and the revision mask `0x0e00` share no bit.
For all bytes `r0`, `r1` that `ksz8863_spi_read8` returns for registers 0x00 and
0x01, the value `chipid` returned by `ksz8863_get_chipid` has bit 8 clear; if it
passes the check `(chipid & 0xf0ff) == 0x3088` then
`chipid == 0x3088 | (chipid & 0x0e00)`; and the check passes exactly when
`r0 == 0x88` and the high nibble of `r1` is 3, so its outcome depends neither on
bit 0 of `r1` (the start bit) nor on bits 1 to 3 of `r1` (the revision). -/
theorem C10_identity_determined_by_revision {σ : Type} (hw : spi_hw σ)
    (data d1 d2 : ksz8863_data σ) (r0 r1 : Nat)
    (e0 : ksz8863_spi_read8 hw data KSZ8863_REG_CHIP_ID_0 = some (r0, d1))
    (e1 : ksz8863_spi_read8 hw d1 KSZ8863_REG_CHIP_ID_1 = some (r1, d2))
    (hb0 : r0 < 256) (hb1 : r1 < 256) :
    KSZ8863_CHIP_ID_MASK &&& KSZ8863_CHIP_REVISION_MASK = 0 ∧
    ∃ chipid, ksz8863_get_chipid hw data = some (chipid, d2) ∧
      chipid &&& 0x100 = 0 ∧
      (chipid &&& KSZ8863_CHIP_ID_MASK = KSZ8863_CHIP_ID →
        chipid = KSZ8863_CHIP_ID ||| (chipid &&& KSZ8863_CHIP_REVISION_MASK)) ∧
      ((ksz8863_probe_check chipid).1 = 0 ↔ r0 = 0x88 ∧ r1 &&& 0xf0 = 0x30) := by
  refine ⟨by decide, r0 ||| ((r1 &&& 0xfe) <<< 8),
    get_chipid_eq hw data r0 r1 d1 d2 e0 e1 hb0 hb1, chipid_bit8 r0 r1 hb0 hb1, ?_, ?_⟩
  · intro hpass
    obtain ⟨p0, p1⟩ := (chipid_check_iff r0 r1 hb0 hb1).mp hpass
    subst p0
    exact chipid_revision r1 hb1 p1
  · rw [probe_check_passes_iff]
    exact chipid_check_iff r0 r1 hb0 hb1

/-- The registers 0x88 and 0x35 (revision bits and start bit set) pass the check. -/
theorem C10_identity_determined_by_revision_witness :
    KSZ8863_CHIP_ID_MASK &&& KSZ8863_CHIP_REVISION_MASK = 0 ∧
    ∃ chipid, ksz8863_get_chipid regfile_hw (fresh (id_regs 0x88 0x35)) =
        some (chipid, after_xfer regfile_hw
          (after_xfer regfile_hw (fresh (id_regs 0x88 0x35)) (read_xfer 0 1)) (read_xfer 1 1)) ∧
      chipid &&& 0x100 = 0 ∧
      (chipid &&& KSZ8863_CHIP_ID_MASK = KSZ8863_CHIP_ID →
        chipid = KSZ8863_CHIP_ID ||| (chipid &&& KSZ8863_CHIP_REVISION_MASK)) ∧
      ((ksz8863_probe_check chipid).1 = 0 ↔ 0x88 = 0x88 ∧ 0x35 &&& 0xf0 = 0x30) :=
  C10_identity_determined_by_revision regfile_hw (fresh (id_regs 0x88 0x35)) _ _ 0x88 0x35
    (read8_done regfile_hw (fresh (id_regs 0x88 0x35)) 0 0x88 (by decide) (by decide))
    (read8_done regfile_hw _ 1 0x35 (by decide) (by decide))
    (by decide) (by decide)

end KSZ8863
